/-
Verification of the OGR INTERLIS 2 transfer-container controller
(`ogr/ogrsf_frmts/ili/ogrili2datasource.cpp`).

The controller (`OGRILI2DataSource`) is shallowly embedded below:
  * the emitted output stream is modelled as a list of `Chunk`s, one per
    `VSIFPrintfL` call, with `Chunk.render` holding the literal format text;
  * virtual-file I/O (`VSIFOpenL`) is an oracle function passed in by the
    caller, and every open attempt is recorded in the outcome;
  * the external model reader (`ImdReader`) is modelled as data: a list of
    model descriptors, the designated main-basket name, and the per-table
    schema entries;
  * CPL string helpers (`CSLTokenizeString2`, `EQUAL`, `CPLGetExtensionSafe`,
    `CPLFormFilenameSafe`, `strstr`) are given their standard semantics.
-/

import Mathlib

set_option autoImplicit false

namespace ILI2

/-! ## Geometry types and schema data (consumed from GDAL core / ImdReader) -/

/-- OGC geometry type codes, restricted to the distinctions the controller
makes: `wkbNone` (no geometry) versus everything else. -/
inductive OGRwkbGeometryType where
  | wkbUnknown
  | wkbPoint
  | wkbLineString
  | wkbPolygon
  | wkbMultiPoint
  | wkbNone
  deriving DecidableEq, Repr

/-- A requested geometry-field descriptor (`OGRGeomFieldDefn`): the controller
only reads its geometry type. -/
structure OGRGeomFieldDefn where
  fieldName : String
  eType : OGRwkbGeometryType
  deriving DecidableEq, Repr

/-- Modelled from the spec: a resolved schema for one table — a field list and
a geometry type.  A freshly constructed `OGRFeatureDefn(name)` has no fields
and geometry type `wkbUnknown`; `SetGeomType` replaces the geometry type. -/
structure OGRFeatureDefn where
  defnName : String
  fieldNames : List String
  geomType : OGRwkbGeometryType
  deriving DecidableEq, Repr

/-- Construction of `OGRFeatureDefn(pszLayerName)` in GDAL core: empty field
list, default geometry type `wkbUnknown`. -/
def OGRFeatureDefn.mk0 (name : String) : OGRFeatureDefn :=
  { defnName := name, fieldNames := [], geomType := .wkbUnknown }

/-- `OGRFeatureDefn::SetGeomType`. -/
def OGRFeatureDefn.SetGeomType (d : OGRFeatureDefn)
    (t : OGRwkbGeometryType) : OGRFeatureDefn :=
  { d with geomType := t }

/-- Per-geometry-field info produced by the model reader (opaque to the
controller, which only forwards it). -/
structure GeomFieldInfo where
  infoName : String
  deriving DecidableEq, Repr

/-- `FeatureDefnInfo` from `imdreader.h`: an optional table definition plus
geometry-field infos.  A default-constructed value has a null table
definition and no geometry-field infos. -/
structure FeatureDefnInfo where
  tableDefn : Option OGRFeatureDefn
  poGeomFieldInfos : List GeomFieldInfo
  deriving DecidableEq, Repr

/-- `FeatureDefnInfo::GetTableDefnRef`. -/
def FeatureDefnInfo.GetTableDefnRef (f : FeatureDefnInfo) :
    Option OGRFeatureDefn :=
  f.tableDefn

/-- One model descriptor `{name, uri, version}` of the model catalog. -/
structure IliModelInfo where
  name : String
  uri : String
  version : String
  deriving DecidableEq, Repr

/-- The external model reader's state after loading a model file: the ordered
model descriptors, the designated main-basket name, and the per-table schema
entries. -/
structure ImdReader where
  modelInfos : List IliModelInfo
  mainBasketName : String
  featureDefnInfos : List FeatureDefnInfo
  deriving DecidableEq, Repr

/-- Modelled from the spec: missing `ImdReader::GetFeatureDefnInfo`
(`imdreader.cpp` is outside the provided sources).  The spec: "Look up the
layer name in the ModelCatalog.  If found, use its resolved
`FeatureDefnInfo`.  If absent", the result has a null table definition
(which triggers the ad-hoc fallback) and no geometry-field infos. -/
def ImdReader.GetFeatureDefnInfo (imd : ImdReader) (layerName : String) :
    FeatureDefnInfo :=
  match imd.featureDefnInfos.find?
      (fun fd => match fd.tableDefn with
        | some d => d.defnName == layerName
        | none => false) with
  | some fd => fd
  | none => { tableDefn := none, poGeomFieldInfos := [] }

/-- A feature layer (`OGRILI2Layer`) bound to a schema and forwarded
geometry-field infos. -/
structure OGRILI2Layer where
  featureDefn : OGRFeatureDefn
  geomFieldInfos : List GeomFieldInfo
  deriving DecidableEq, Repr

/-! ## CPL string helpers (standard semantics of external helpers) -/

/-- Split a character list at every comma (keeping empty pieces). -/
def splitOnComma : List Char → List (List Char)
  | [] => [[]]
  | c :: rest =>
    match splitOnComma rest with
    | [] => [[]]
    | t :: ts => if c = ',' then [] :: t :: ts else (c :: t) :: ts

/-- Modelled from the spec: `CSLTokenizeString2(s, ",", 0)` — "Split the
address" on commas; with flags `0` empty tokens are dropped. -/
def CSLTokenizeString2 (s : String) : List String :=
  ((splitOnComma s.toList).map (fun cs => String.mk cs)).filter
    (fun t => t ≠ "")

/-- `tolower` on a single byte, as used by `STRCASECMP`. -/
def byteToLower (c : Char) : Char :=
  if 'A' ≤ c ∧ c ≤ 'Z' then Char.ofNat (c.toNat + 32) else c

/-- `EQUAL(a, b)`: case-insensitive string equality (`STRCASECMP == 0`). -/
def strEqualCI (a b : String) : Bool :=
  a.toList.map byteToLower == b.toList.map byteToLower

/-- Modelled from the spec: `CPLGetExtensionSafe` — the text after the last
`.` of the last path component, or `""` when that component has no dot. -/
def CPLGetExtensionSafe (s : String) : String :=
  let base := ((s.toList.reverse.takeWhile
      (fun c => c ≠ '/' ∧ c ≠ '\\')).reverse)
  if base.contains '.' then
    ⟨(base.reverse.takeWhile (fun c => c ≠ '.')).reverse⟩
  else ""

/-- Modelled from the spec: `CPLFormFilenameSafe(path, base, nullptr)` —
"appends a default entry filename": joins with `/` unless the path already
ends in a separator. -/
def CPLFormFilenameSafe (path base : String) : String :=
  if path = "" then base
  else if path.toList.getLast? = some '/' ∨ path.toList.getLast? = some '\\'
  then path ++ base
  else path ++ "/" ++ base

/-- `strstr`-style containment: `needle` occurs as a contiguous substring of
`hay`. -/
def strstrContains (needle hay : List Char) : Bool :=
  hay.tails.any (fun t => needle.isPrefixOf t)

/-- `STARTS_WITH(a, b)`: case-sensitive prefix test (`strncmp`). -/
def STARTS_WITH (s p : String) : Bool :=
  p.toList.isPrefixOf s.toList

/-! ## Error plumbing -/

/-- CPL error severity, as passed to `CPLError`. -/
inductive CPLLevel where
  | warning
  | failure
  deriving DecidableEq, Repr

/-- CPL error class, as passed to `CPLError`. -/
inductive CPLErrorKind where
  | openFailed
  | appDefined
  deriving DecidableEq, Repr

/-! ## The emitted output stream -/

/-- One chunk of output text, one per `VSIFPrintfL` call of the write path.
`render` gives the literal text each chunk stands for. -/
inductive Chunk where
  | xmlProlog
  | transferOpen
  | headerSectionOpen (sender : String)
  | modelsOpen
  | modelEntry (name uri version : String)
  | modelsClose
  | headerSectionClose
  | dataSectionOpen
  | basketOpen (name bid : String)
  | basketClose (name : String)
  | dataSectionClose
  | transferClose
  deriving DecidableEq, Repr

/-- The literal text of each chunk, matching the `VSIFPrintfL` format strings
of `Create` and the destructor. -/
def Chunk.render : Chunk → String
  | .xmlProlog => "<?xml version=\"1.0\" encoding=\"utf-8\" ?>\n"
  | .transferOpen =>
      "<TRANSFER xmlns=\"http://www.interlis.ch/INTERLIS2.3\">\n"
  | .headerSectionOpen v =>
      "<HEADERSECTION SENDER=\"OGR/GDAL " ++ v ++ "\" VERSION=\"2.3\">\n"
  | .modelsOpen => "<MODELS>\n"
  | .modelEntry n u v =>
      "<MODEL NAME=\"" ++ n ++ "\" URI=\"" ++ u ++ "\" VERSION=\"" ++ v
        ++ "\"/>\n"
  | .modelsClose => "</MODELS>\n"
  | .headerSectionClose => "</HEADERSECTION>\n"
  | .dataSectionOpen => "<DATASECTION>\n"
  | .basketOpen n bid => "<" ++ n ++ " BID=\"" ++ bid ++ "\">\n"
  | .basketClose n => "</" ++ n ++ ">\n"
  | .dataSectionClose => "</DATASECTION>\n"
  | .transferClose => "</TRANSFER>\n"

/-- Is this chunk a `<MODEL .../>` entry of the model-list block? -/
def Chunk.isModelEntry : Chunk → Bool
  | .modelEntry _ _ _ => true
  | _ => false

/-- Is this chunk part of the closing footer written by the destructor? -/
def Chunk.isFooter : Chunk → Bool
  | .basketClose _ => true
  | .dataSectionClose => true
  | .transferClose => true
  | _ => false

/-- The header framing written by `Create` after the output file is open, in
the order of the `VSIFPrintfL` calls (prolog, envelope open, header section
with sender stamp, model list with one entry per catalog descriptor, header
close, data-section open, basket open with `BID` equal to the basket name). -/
def createChunks (imd : ImdReader) (gdalVersion : String) : List Chunk :=
  [.xmlProlog, .transferOpen, .headerSectionOpen gdalVersion, .modelsOpen]
    ++ imd.modelInfos.map (fun m => Chunk.modelEntry m.name m.uri m.version)
    ++ [.modelsClose, .headerSectionClose, .dataSectionOpen,
        .basketOpen imd.mainBasketName imd.mainBasketName]

/-- The closing footer written by the destructor when `fpOutput` is held:
basket close, data-section close, envelope close. -/
def footerChunks (basketName : String) : List Chunk :=
  [.basketClose basketName, .dataSectionClose, .transferClose]

/-! ## Controller state -/

/-- The fields of `OGRILI2DataSource` the claims depend on.  `written` is the
text already sent to `fpOutput` (empty when `fpOutput` is not held);
`listLayer` is the linked list filled by `Open` from the external reader;
`papoLayers` is the array grown by `ICreateLayer`. -/
structure DSState where
  pszName : String
  fpOutput : Bool
  imd : ImdReader
  written : List Chunk
  listLayer : List OGRILI2Layer
  papoLayers : List OGRILI2Layer
  deriving Repr

/-- A freshly constructed `OGRILI2DataSource`: null output stream, empty
layer collections, a fresh `ImdReader` (whose initial contents `imd0` come
from the external `ImdReader(2)` constructor). -/
def newDataSource (imd0 : ImdReader) : DSState :=
  { pszName := "", fpOutput := false, imd := imd0, written := [],
    listLayer := [], papoLayers := [] }

/-- Teardown (`~OGRILI2DataSource`): when the output stream is held, the
closing footer is appended to what was already written; otherwise nothing
more is emitted.  The result is the final content of the output stream. -/
def destructorOutput (s : DSState) : List Chunk :=
  s.written ++ (if s.fpOutput then footerChunks s.imd.mainBasketName else [])

/-! ## Open (read path) -/

/-- The namespace marker searched for in the probed header
(`strstr(szHeader, "interlis.ch/INTERLIS2")`). -/
def iliMarker : List Char := "interlis.ch/INTERLIS2".toList

/-- The probed header as a C string: `VSIFReadL` reads up to 1000 bytes into
`szHeader`; when exactly 1000 bytes were read the last one is overwritten by
the terminating NUL, otherwise the NUL follows the bytes read; the C string
then stops at the first NUL byte of the buffer. -/
def headerWindow (content : List Char) : List Char :=
  let raw := content.take 1000
  let buf := if raw.length = 1000 then raw.take 999 else raw
  buf.takeWhile (fun c => c ≠ Char.ofNat 0)

/-- The probe decision of `Open`: the first byte of the header window must be
`<` and the window must contain the namespace marker. -/
def probeMatch (hw : List Char) : Bool :=
  hw.head? == some '<' && strstrContains iliMarker hw

/-- First non-whitespace byte of a byte sequence (the spec's reading of the
probe condition, for comparison against `probeMatch`). -/
def firstNonWhitespace (hw : List Char) : Option Char :=
  (hw.dropWhile (fun c => c.isWhitespace)).head?

/-- Outcome of `Open`. -/
structure OpenOutcome where
  ret : Bool
  errors : List (CPLLevel × CPLErrorKind)
  state : DSState
  deriving Repr

/-- Resolution of the data-file path in `Open`: with an explicit `MODEL`
open option the whole address is the data path; otherwise the first
comma-token is, and `none` (zero tokens) means nothing to open. -/
def resolveBasename (pszNewName : String) (modelOpt : Option String) :
    Option String :=
  match modelOpt with
  | some _ => some pszNewName
  | none => (CSLTokenizeString2 pszNewName).head?

/-- `OGRILI2DataSource::Open`.  `modelOpt` is the out-of-band `MODEL` open
option; `vsiOpenOk` tells whether `VSIFOpenL` succeeds on the resolved data
path; `content` is the data file's bytes; `readerOk` tells whether
`CreateILI2Reader` succeeds; `readerLayers` are the layers the external
reader materialises from the document (model loading and document scanning
are delegated to the external reader and not modelled further). -/
def DSOpen (s : DSState) (pszNewName : String) (modelOpt : Option String)
    (bTestOpen : Bool) (vsiOpenOk : String → Bool) (content : List Char)
    (readerOk : Bool) (readerLayers : List OGRILI2Layer) : OpenOutcome :=
  match resolveBasename pszNewName modelOpt with
  | none => { ret := false, errors := [], state := s }
  | some osBasename =>
    let s := { s with pszName := osBasename }
    if ¬ vsiOpenOk osBasename then
      { ret := false,
        errors :=
          if bTestOpen then [] else [(.failure, .openFailed)],
        state := s }
    else if bTestOpen ∧ probeMatch (headerWindow content) = false then
      { ret := false, errors := [], state := s }
    else if ¬ readerOk then
      { ret := false, errors := [(.failure, .appDefined)], state := s }
    else
      { ret := true, errors := [], state := { s with listLayer := readerLayers } }

/-! ## Create (write path) -/

/-- The destination-scheme resolution of `Create`: stdout and gzip-wrapped
paths open as written in mode `wb`; zip-wrapped paths whose extension is
`zip` (case-insensitively) get the fixed entry name `out.xtf` appended and
open in mode `wb`; every other path opens as written in mode `wb+`. -/
def resolveOutputPath (pszName : String) : String × String :=
  if pszName = "/vsistdout/" ∨ STARTS_WITH pszName "/vsigzip/" then
    (pszName, "wb")
  else if STARTS_WITH pszName "/vsizip/" then
    (if strEqualCI (CPLGetExtensionSafe pszName) "zip" then
       CPLFormFilenameSafe pszName "out.xtf"
     else pszName, "wb")
  else (pszName, "wb+")

/-- Outcome of `Create`.  `openAttempts` records each `VSIFOpenL` call made
on the output side as a `(path, mode)` pair. -/
structure CreateOutcome where
  ret : Bool
  errors : List (CPLLevel × CPLErrorKind)
  openAttempts : List (String × String)
  state : DSState
  deriving Repr

/-- `OGRILI2DataSource::Create`.  `readModel` is the external
`ImdReader::ReadModel`, mapping the model path to the loaded catalog;
`vsiOpenOk` tells whether `VSIFOpenL` succeeds on a given path and mode. -/
def DSCreate (s : DSState) (pszFilename : String)
    (readModel : String → ImdReader) (vsiOpenOk : String → String → Bool)
    (gdalVersion : String) : CreateOutcome :=
  let filenames := CSLTokenizeString2 pszFilename
  let pszName := filenames.headD ""
  match filenames[1]? with
  | none =>
    { ret := false, errors := [(.failure, .appDefined)], openAttempts := [],
      state := { s with pszName := pszName } }
  | some pszModelFilename =>
    let (path, mode) := resolveOutputPath pszName
    if vsiOpenOk path mode then
      let imd := readModel pszModelFilename
      let s2 := { s with pszName := path, fpOutput := true, imd := imd,
                         written := createChunks imd gdalVersion }
      { ret := true, errors := [], openAttempts := [(path, mode)],
        state := s2 }
    else
      { ret := false, errors := [(.failure, .openFailed)],
        openAttempts := [(path, mode)],
        state := { s with pszName := path } }

/-! ## Layer creation (write path) -/

/-- Outcome of `ICreateLayer`: the returned layer (null when the container is
not open for writing), whether a non-fatal warning was emitted, and the
datasource state afterwards. -/
structure CreateLayerOutcome where
  layer : Option OGRILI2Layer
  warned : Bool
  state : DSState
  deriving Repr

/-- `OGRILI2DataSource::ICreateLayer`: fail fast when no output stream is
held; otherwise look the name up in the catalog, fall back to a synthesized
geometry-only schema (with a warning) when absent, and append the new layer
to `papoLayers`. -/
def ICreateLayer (s : DSState) (pszLayerName : String)
    (poGeomFieldDefn : Option OGRGeomFieldDefn) : CreateLayerOutcome :=
  if ¬ s.fpOutput then { layer := none, warned := false, state := s }
  else
    let eType := match poGeomFieldDefn with
      | some g => g.eType
      | none => .wkbNone
    let featureDefnInfo := s.imd.GetFeatureDefnInfo pszLayerName
    let (poFeatureDefn, warned) :=
      match featureDefnInfo.GetTableDefnRef with
      | some d => (d, false)
      | none => ((OGRFeatureDefn.mk0 pszLayerName).SetGeomType eType, true)
    let poLayer : OGRILI2Layer :=
      { featureDefn := poFeatureDefn,
        geomFieldInfos := featureDefnInfo.poGeomFieldInfos }
    { layer := some poLayer, warned := warned,
      state := { s with papoLayers := s.papoLayers ++ [poLayer] } }

/-! ## Capability query -/

/-- `ODsCCreateLayer` capability name (GDAL core constant). -/
def ODsCCreateLayer : String := "CreateLayer"

/-- `ODsCCurveGeometries` capability name (GDAL core constant). -/
def ODsCCurveGeometries : String := "CurveGeometries"

/-- `ODsCZGeometries` capability name (GDAL core constant). -/
def ODsCZGeometries : String := "ZGeometries"

/-- `OGRILI2DataSource::TestCapability`: `EQUAL` (case-insensitive)
comparison against the three recognised capability names. -/
def TestCapability (pszCap : String) : Bool :=
  if strEqualCI pszCap ODsCCreateLayer then true
  else if strEqualCI pszCap ODsCCurveGeometries then true
  else if strEqualCI pszCap ODsCZGeometries then true
  else false

/-! ## Layer lookup by index -/

/-- The traversal loop of `GetLayer`: starting at counter `i` with the list
iterator at `layers`, advance while `i < iLayer` and the iterator has not
reached the end.  Returns the final counter, the remaining list (the
iterator position), and the number of traversal steps taken. -/
def getLayerLoop (iLayer : Int) : Int → List OGRILI2Layer →
    Int × List OGRILI2Layer × Nat
  | i, [] => (i, [], 0)
  | i, l :: rest =>
    if i < iLayer then
      let r := getLayerLoop iLayer (i + 1) rest
      (r.1, r.2.1, r.2.2 + 1)
    else (i, l :: rest, 0)

/-- `OGRILI2DataSource::GetLayer`: walk `listLayer`; return the element at
the iterator if the counter reached `iLayer` before the end, else null. -/
def GetLayer (s : DSState) (iLayer : Int) : Option OGRILI2Layer :=
  let r := getLayerLoop iLayer 0 s.listLayer
  if r.1 = iLayer then r.2.1.head? else none

/-- Number of iterator steps `GetLayer` performs. -/
def getLayerSteps (s : DSState) (iLayer : Int) : Nat :=
  (getLayerLoop iLayer 0 s.listLayer).2.2

/-! ## Whole-container lifecycle -/

/-- Whether the model catalog has an entry for a given layer name (the
lookup predicate of `GetFeatureDefnInfo`). -/
def catalogHasLayer (imd : ImdReader) (layerName : String) : Bool :=
  imd.featureDefnInfos.any
    (fun fd => match fd.tableDefn with
      | some d => d.defnName == layerName
      | none => false)

/-- How a container is initialised: by `Open` (read path) or by `Create`
(write path), each with its external inputs. -/
inductive SessionInit where
  | viaOpen (pszNewName : String) (modelOpt : Option String)
      (bTestOpen : Bool) (vsiOpenOk : String → Bool) (content : List Char)
      (readerOk : Bool) (readerLayers : List OGRILI2Layer)
  | viaCreate (pszFilename : String) (readModel : String → ImdReader)
      (vsiOpenOk : String → String → Bool) (gdalVersion : String)

/-- The datasource state after initialising a fresh container one way or the
other. -/
def initState (imd0 : ImdReader) : SessionInit → DSState
  | .viaOpen nm mo bt ok c rok rl =>
      (DSOpen (newDataSource imd0) nm mo bt ok c rok rl).state
  | .viaCreate f rm ok v =>
      (DSCreate (newDataSource imd0) f rm ok v).state

/-- Whether the initialisation was a successful `Create`. -/
def sessionCreateOk (imd0 : ImdReader) : SessionInit → Bool
  | .viaOpen _ _ _ _ _ _ _ => false
  | .viaCreate f rm ok v => (DSCreate (newDataSource imd0) f rm ok v).ret

/-! ## Concrete sample data (used to instantiate the theorems) -/

/-- Contents of a freshly constructed `ImdReader(2)` (empty catalog). -/
def imdInit : ImdReader :=
  { modelInfos := [], mainBasketName := "OGR", featureDefnInfos := [] }

/-- The table definition of the sample catalog. -/
def sampleTableDefn : OGRFeatureDefn :=
  { defnName := "RoadSign", fieldNames := ["Type"], geomType := .wkbPoint }

/-- A sample loaded model catalog: two model descriptors and one table. -/
def imdSample : ImdReader :=
  { modelInfos :=
      [{ name := "RoadsExdm2ben", uri := "http://www.interlis.ch/models",
         version := "2005-06-16" },
       { name := "RoadsExdm2ien", uri := "http://www.interlis.ch/models",
         version := "2005-06-16" }],
    mainBasketName := "RoadsExdm2ien.RoadsExtended",
    featureDefnInfos :=
      [{ tableDefn := some sampleTableDefn,
         poGeomFieldInfos := [{ infoName := "Position" }] }] }

/-- A bare sample layer with the given name. -/
def sampleLayer (n : String) : OGRILI2Layer :=
  { featureDefn := OGRFeatureDefn.mk0 n, geomFieldInfos := [] }

/-- A sample read-mode datasource state holding two discovered layers. -/
def sampleReadState : DSState :=
  { pszName := "sample.xtf", fpOutput := false, imd := imdInit,
    written := [], listLayer := [sampleLayer "A", sampleLayer "B"],
    papoLayers := [] }

/-- A sample write-mode session: `Create` on `out.xtf,model.ili` with every
file open succeeding, followed by one layer creation. -/
def sampleCreateOutcome : CreateOutcome :=
  DSCreate (newDataSource imdInit) "out.xtf,model.ili" (fun _ => imdSample)
    (fun _ _ => true) "3.12.0"

/-- The datasource state after `sampleCreateOutcome` plus one created
layer. -/
def sampleCreatedLayerOutcome : CreateLayerOutcome :=
  ICreateLayer sampleCreateOutcome.state "RoadSign" none

/-- The sample write session as a lifecycle event. -/
def sampleCreateEvent : SessionInit :=
  .viaCreate "out.xtf,model.ili" (fun _ => imdSample) (fun _ _ => true)
    "3.12.0"

/-- A probed file whose first non-whitespace byte is `<` and whose header
window contains the namespace marker, but whose very first byte is a
space. -/
def probeCexContent : List Char := " <Roads interlis.ch/INTERLIS2.3>".toList

/-! ## Theorems -/

/-- The `GetLayer` loop, started at counter `i` with at least `iLayer - i`
elements left, stops with the counter at `iLayer`, the iterator advanced by
`iLayer - i` positions, after `iLayer - i` steps. -/
theorem getLayerLoop_reaches (iLayer : Int) :
    ∀ (layers : List OGRILI2Layer) (i : Int), i ≤ iLayer →
      (iLayer - i).toNat ≤ layers.length →
      getLayerLoop iLayer i layers =
        (iLayer, layers.drop (iLayer - i).toNat, (iLayer - i).toNat) := by
  intro layers
  induction layers with
  | nil =>
    intro i h1 h2
    simp only [List.length_nil, Nat.le_zero] at h2
    have hi : i = iLayer := by omega
    simp [getLayerLoop, hi, h2]
  | cons l rest ih =>
    intro i h1 h2
    by_cases hlt : i < iLayer
    · have hn : (iLayer - i).toNat = (iLayer - (i + 1)).toNat + 1 := by omega
      simp only [getLayerLoop, if_pos hlt]
      rw [ih (i + 1) (by omega) (by simp at h2; omega)]
      rw [hn]
      simp [List.drop_succ_cons]
    · have hi : i = iLayer := by omega
      simp only [getLayerLoop, if_neg hlt]
      have h0 : (iLayer - i).toNat = 0 := by omega
      simp [hi, h0]

/-- The `GetLayer` loop, asked to advance past the end of the list, stops at
the end with the counter short of `iLayer`, after one step per element. -/
theorem getLayerLoop_past (iLayer : Int) :
    ∀ (layers : List OGRILI2Layer) (i : Int), i ≤ iLayer →
      layers.length < (iLayer - i).toNat →
      getLayerLoop iLayer i layers =
        (i + layers.length, [], layers.length) := by
  intro layers
  induction layers with
  | nil =>
    intro i h1 h2
    simp [getLayerLoop]
  | cons l rest ih =>
    intro i h1 h2
    have hlt : i < iLayer := by
      simp at h2
      omega
    simp only [getLayerLoop, if_pos hlt]
    rw [ih (i + 1) (by omega) (by simp at h2; omega)]
    simp only [List.length_cons, Prod.mk.injEq, and_true, true_and]
    push_cast
    omega

/-- C2 counterexample: a container successfully opened for writing whose
registry holds one layer created via `ICreateLayer`; lookup by index `0`
returns null rather than the created layer, because `GetLayer` walks
`listLayer` while `ICreateLayer` appends to `papoLayers`. -/
theorem getLayer_ignores_created_layers :
    sampleCreateOutcome.ret = true
    ∧ sampleCreatedLayerOutcome.layer.isSome = true
    ∧ sampleCreatedLayerOutcome.state.papoLayers.length = 1
    ∧ GetLayer sampleCreatedLayerOutcome.state 0 = none := by
  decide

/-- C2 (amended): layer lookup by index walks the list of layers discovered
at open time (`listLayer`): with `K` discovered layers, index `i` with
`0 ≤ i < K` returns the layer at discovery position `i` (never null) and
`i ≥ K` returns null; layers created via `ICreateLayer` live in a separate
array and are not returned by indexed lookup. -/
theorem getLayer_index_stability (s : DSState) (i : Int) (h0 : 0 ≤ i) :
    ((i < (s.listLayer.length : Int)) →
       GetLayer s i = s.listLayer[i.toNat]? ∧ s.listLayer[i.toNat]? ≠ none)
    ∧ (((s.listLayer.length : Int) ≤ i) → GetLayer s i = none) := by
  constructor
  · intro hlt
    have hA := getLayerLoop_reaches i s.listLayer 0 h0 (by omega)
    unfold GetLayer
    rw [hA]
    simp only [if_pos rfl]
    constructor
    · have hidx : (i - 0).toNat + 0 = i.toNat := by omega
      rw [List.head?_eq_getElem?, List.getElem?_drop, hidx]
      simp
    · simp only [ne_eq, List.getElem?_eq_none_iff]
      omega
  · intro hge
    by_cases hc : (i - 0).toNat ≤ s.listLayer.length
    · have hA := getLayerLoop_reaches i s.listLayer 0 h0 hc
      unfold GetLayer
      rw [hA]
      have hdrop : s.listLayer.drop (i - 0).toNat = [] := by
        apply List.drop_eq_nil_of_le
        omega
      simp [hdrop]
      omega
    · have hB := getLayerLoop_past i s.listLayer 0 h0 (by omega)
      unfold GetLayer
      rw [hB]
      have hne : ¬ ((0 : Int) + s.listLayer.length = i) := by omega
      simp [hne]

/-- C2 witness: the amended index-stability theorem applied to the sample
read-mode state with two discovered layers, at index `1`. -/
theorem getLayer_index_stability_witness :
    (0 : Int) ≤ 1
    ∧ (((1 : Int) < (sampleReadState.listLayer.length : Int)) →
         GetLayer sampleReadState 1 = sampleReadState.listLayer[(1 : Int).toNat]?
         ∧ sampleReadState.listLayer[(1 : Int).toNat]? ≠ none)
    ∧ (((sampleReadState.listLayer.length : Int) ≤ 1) →
         GetLayer sampleReadState 1 = none) := by
  refine ⟨by decide, ?_, ?_⟩
  · exact (getLayer_index_stability sampleReadState 1 (by decide)).1
  · exact (getLayer_index_stability sampleReadState 1 (by decide)).2

/-- C10: for every negative index, `GetLayer` returns null after zero
traversal steps; lookup is a total function over all integer indices. -/
theorem getLayer_negative (s : DSState) (i : Int) (h : i < 0) :
    GetLayer s i = none ∧ getLayerSteps s i = 0 := by
  unfold GetLayer getLayerSteps
  cases hL : s.listLayer with
  | nil =>
    have : ¬ ((0 : Int) = i) := by omega
    simp [getLayerLoop, this]
  | cons l rest =>
    have hlt : ¬ ((0 : Int) < i) := by omega
    have : ¬ ((0 : Int) = i) := by omega
    simp [getLayerLoop, if_neg hlt, this]

/-- C10 witness: negative-index lookup at `-1` on the sample read-mode
state. -/
theorem getLayer_negative_witness :
    (-1 : Int) < 0
    ∧ GetLayer sampleReadState (-1) = none
    ∧ getLayerSteps sampleReadState (-1) = 0 := by
  refine ⟨by decide, ?_⟩
  exact getLayer_negative sampleReadState (-1) (by decide)

/-- The header framing emitted by `Create` contains no footer chunk. -/
theorem countP_isFooter_createChunks (imd : ImdReader) (v : String) :
    (createChunks imd v).countP Chunk.isFooter = 0 := by
  simp [createChunks, List.countP_cons, Chunk.isFooter, List.countP_eq_zero]

/-- `Open` never touches the output stream, the written text, or the loaded
catalog of the datasource, on any of its paths. -/
theorem DSOpen_preserves_write_state (s : DSState) (nm : String)
    (mo : Option String) (bt : Bool) (ok : String → Bool) (c : List Char)
    (rok : Bool) (rl : List OGRILI2Layer) :
    (DSOpen s nm mo bt ok c rok rl).state.fpOutput = s.fpOutput
    ∧ (DSOpen s nm mo bt ok c rok rl).state.written = s.written
    ∧ (DSOpen s nm mo bt ok c rok rl).state.imd = s.imd := by
  unfold DSOpen
  cases hres : resolveBasename nm mo with
  | none => simp [hres]
  | some b =>
    simp only [hres]
    split
    · simp
    · split
      · simp
      · split <;> simp

/-- On a fresh datasource, `Create` holds the output stream exactly when it
returns success, in which case the header framing has been written; on
failure nothing has been written. -/
theorem DSCreate_new_state (imd0 : ImdReader) (f : String)
    (rm : String → ImdReader) (ok : String → String → Bool) (v : String) :
    (DSCreate (newDataSource imd0) f rm ok v).state.fpOutput
        = (DSCreate (newDataSource imd0) f rm ok v).ret
    ∧ ((DSCreate (newDataSource imd0) f rm ok v).ret = true →
        (DSCreate (newDataSource imd0) f rm ok v).state.written
          = createChunks (DSCreate (newDataSource imd0) f rm ok v).state.imd v)
    ∧ ((DSCreate (newDataSource imd0) f rm ok v).ret = false →
        (DSCreate (newDataSource imd0) f rm ok v).state.written = []) := by
  unfold DSCreate
  cases hm : (CSLTokenizeString2 f)[1]? with
  | none => simp [hm, newDataSource]
  | some m =>
    simp only [hm]
    split <;> simp [newDataSource]

/-- C6: closing-footer framing is emitted exactly once per container, only
when the opening framing was emitted (the output stream is held exactly when
`Create` succeeded, and then the written text is the header framing), and
only during teardown (the pre-teardown stream holds no footer chunk);
containers initialised by `Open`, or whose `Create` failed, emit no footer
at teardown. -/
theorem footer_framing_invariant (imd0 : ImdReader) (ev : SessionInit) :
    (initState imd0 ev).fpOutput = sessionCreateOk imd0 ev
    ∧ (initState imd0 ev).written.countP Chunk.isFooter = 0
    ∧ (destructorOutput (initState imd0 ev)).countP Chunk.isFooter
        = (if sessionCreateOk imd0 ev then 3 else 0)
    ∧ (sessionCreateOk imd0 ev = true →
        ∃ v, destructorOutput (initState imd0 ev)
          = createChunks (initState imd0 ev).imd v
            ++ footerChunks (initState imd0 ev).imd.mainBasketName) := by
  cases ev with
  | viaOpen nm mo bt ok c rok rl =>
    obtain ⟨hfp, hw, -⟩ :=
      DSOpen_preserves_write_state (newDataSource imd0) nm mo bt ok c rok rl
    simp only [initState, sessionCreateOk]
    refine ⟨?_, ?_, ?_, ?_⟩
    · rw [hfp]; rfl
    · rw [hw]; rfl
    · unfold destructorOutput
      rw [hfp, hw]
      simp [newDataSource]
    · intro hc
      exact absurd hc (by simp)
  | viaCreate f rm ok v =>
    obtain ⟨hfp, hwt, hwf⟩ := DSCreate_new_state imd0 f rm ok v
    simp only [initState, sessionCreateOk]
    by_cases hr : (DSCreate (newDataSource imd0) f rm ok v).ret = true
    · have hw := hwt hr
      refine ⟨by rw [hfp, hr], ?_, ?_, ?_⟩
      · rw [hw]
        exact countP_isFooter_createChunks _ _
      · unfold destructorOutput
        simp only [hfp, hr, hw, if_pos, List.countP_append,
          countP_isFooter_createChunks, footerChunks, Chunk.isFooter]
        simp [Chunk.isFooter]
      · intro _
        refine ⟨v, ?_⟩
        unfold destructorOutput
        simp [hfp, hr, hw]
    · have hrf : (DSCreate (newDataSource imd0) f rm ok v).ret = false := by
        cases h0 : (DSCreate (newDataSource imd0) f rm ok v).ret
        · rfl
        · exact absurd h0 hr
      have hw := hwf hrf
      refine ⟨by rw [hfp, hrf], ?_, ?_, ?_⟩
      · rw [hw]; rfl
      · unfold destructorOutput
        simp [hfp, hrf, hw]
      · intro hc
        simp [hrf] at hc

/-- C1: when `Create` succeeds on a fresh container and the container is
torn down with no features appended, the output document holds exactly one
`<MODEL>` entry per catalog descriptor, in catalog order, and is precisely
the header framing followed by an empty basket element (opened with `BID`
equal to the basket name and immediately closed), the data-section close
tag, and the transfer-envelope close tag, in that order. -/
theorem create_teardown_framing (imd0 : ImdReader) (addr gv : String)
    (rm : String → ImdReader) (ok : String → String → Bool) (s : DSState)
    (hs : s = (DSCreate (newDataSource imd0) addr rm ok gv).state)
    (h : (DSCreate (newDataSource imd0) addr rm ok gv).ret = true) :
    (destructorOutput s).countP Chunk.isModelEntry = s.imd.modelInfos.length
    ∧ (destructorOutput s).filter Chunk.isModelEntry
        = s.imd.modelInfos.map
            (fun m => Chunk.modelEntry m.name m.uri m.version)
    ∧ destructorOutput s
        = [Chunk.xmlProlog, Chunk.transferOpen, Chunk.headerSectionOpen gv,
           Chunk.modelsOpen]
          ++ s.imd.modelInfos.map
              (fun m => Chunk.modelEntry m.name m.uri m.version)
          ++ [Chunk.modelsClose, Chunk.headerSectionClose,
              Chunk.dataSectionOpen,
              Chunk.basketOpen s.imd.mainBasketName s.imd.mainBasketName,
              Chunk.basketClose s.imd.mainBasketName, Chunk.dataSectionClose,
              Chunk.transferClose] := by
  obtain ⟨hfp, hwt, -⟩ := DSCreate_new_state imd0 addr rm ok gv
  subst hs
  have hfp2 : (DSCreate (newDataSource imd0) addr rm ok gv).state.fpOutput
      = true := by rw [hfp, h]
  have hw := hwt h
  have hdoc :
      destructorOutput (DSCreate (newDataSource imd0) addr rm ok gv).state
      = createChunks (DSCreate (newDataSource imd0) addr rm ok gv).state.imd gv
        ++ footerChunks
            (DSCreate (newDataSource imd0)
              addr rm ok gv).state.imd.mainBasketName := by
    unfold destructorOutput
    rw [hfp2, hw]
    simp
  rw [hdoc]
  refine ⟨?_, ?_, ?_⟩
  · simp [createChunks, footerChunks, Chunk.isModelEntry, Function.comp]
  · have hcomp : (Chunk.isModelEntry ∘
        fun m : IliModelInfo => Chunk.modelEntry m.name m.uri m.version)
        = fun _ => true := by
      funext m
      rfl
    simp [createChunks, footerChunks, List.filter_map, Chunk.isModelEntry,
      hcomp]
  · simp [createChunks, footerChunks]

/-- C1 witness: the framing theorem applied to the sample `Create` session
(two model descriptors, every open succeeding). -/
theorem create_teardown_framing_witness :
    sampleCreateOutcome.state
        = (DSCreate (newDataSource imdInit) "out.xtf,model.ili"
            (fun _ => imdSample) (fun _ _ => true) "3.12.0").state
    ∧ (DSCreate (newDataSource imdInit) "out.xtf,model.ili"
        (fun _ => imdSample) (fun _ _ => true) "3.12.0").ret = true
    ∧ ((destructorOutput sampleCreateOutcome.state).countP Chunk.isModelEntry
          = sampleCreateOutcome.state.imd.modelInfos.length
        ∧ (destructorOutput sampleCreateOutcome.state).filter
              Chunk.isModelEntry
            = sampleCreateOutcome.state.imd.modelInfos.map
                (fun m => Chunk.modelEntry m.name m.uri m.version)
        ∧ destructorOutput sampleCreateOutcome.state
            = [Chunk.xmlProlog, Chunk.transferOpen,
               Chunk.headerSectionOpen "3.12.0", Chunk.modelsOpen]
              ++ sampleCreateOutcome.state.imd.modelInfos.map
                  (fun m => Chunk.modelEntry m.name m.uri m.version)
              ++ [Chunk.modelsClose, Chunk.headerSectionClose,
                  Chunk.dataSectionOpen,
                  Chunk.basketOpen
                    sampleCreateOutcome.state.imd.mainBasketName
                    sampleCreateOutcome.state.imd.mainBasketName,
                  Chunk.basketClose
                    sampleCreateOutcome.state.imd.mainBasketName,
                  Chunk.dataSectionClose, Chunk.transferClose]) :=
  ⟨rfl, by decide,
    create_teardown_framing imdInit "out.xtf,model.ili" "3.12.0"
      (fun _ => imdSample) (fun _ _ => true) sampleCreateOutcome.state rfl
      (by decide)⟩

/-- C6 witness: the footer invariant applied to the sample write session. -/
theorem footer_framing_invariant_witness :
    (initState imdInit sampleCreateEvent).fpOutput
        = sessionCreateOk imdInit sampleCreateEvent
    ∧ (initState imdInit sampleCreateEvent).written.countP Chunk.isFooter = 0
    ∧ (destructorOutput (initState imdInit sampleCreateEvent)).countP
          Chunk.isFooter
        = (if sessionCreateOk imdInit sampleCreateEvent then 3 else 0)
    ∧ (sessionCreateOk imdInit sampleCreateEvent = true →
        ∃ v, destructorOutput (initState imdInit sampleCreateEvent)
          = createChunks (initState imdInit sampleCreateEvent).imd v
            ++ footerChunks
                (initState imdInit sampleCreateEvent).imd.mainBasketName) :=
  footer_framing_invariant imdInit sampleCreateEvent

/-- C4: a `Create` address whose comma-split has a single component fails
with a fatal `AppDefined` error, attempts no file open, and leaves the
container with no output stream and nothing written. -/
theorem create_requires_model (imd0 : ImdReader) (addr : String)
    (rm : String → ImdReader) (ok : String → String → Bool) (v : String)
    (h : (CSLTokenizeString2 addr).length = 1) :
    (DSCreate (newDataSource imd0) addr rm ok v).ret = false
    ∧ (DSCreate (newDataSource imd0) addr rm ok v).errors
        = [(.failure, .appDefined)]
    ∧ (DSCreate (newDataSource imd0) addr rm ok v).openAttempts = []
    ∧ (DSCreate (newDataSource imd0) addr rm ok v).state.fpOutput = false
    ∧ (DSCreate (newDataSource imd0) addr rm ok v).state.written = [] := by
  have hm : (CSLTokenizeString2 addr)[1]? = none :=
    List.getElem?_eq_none (by omega)
  unfold DSCreate
  simp [hm, newDataSource]

/-- C4 witness: `Create` on the single-component address `out.xtf`. -/
theorem create_requires_model_witness :
    (CSLTokenizeString2 "out.xtf").length = 1
    ∧ ((DSCreate (newDataSource imdInit) "out.xtf" (fun _ => imdSample)
          (fun _ _ => true) "3.12.0").ret = false
       ∧ (DSCreate (newDataSource imdInit) "out.xtf" (fun _ => imdSample)
            (fun _ _ => true) "3.12.0").errors = [(.failure, .appDefined)]
       ∧ (DSCreate (newDataSource imdInit) "out.xtf" (fun _ => imdSample)
            (fun _ _ => true) "3.12.0").openAttempts = []
       ∧ (DSCreate (newDataSource imdInit) "out.xtf" (fun _ => imdSample)
            (fun _ _ => true) "3.12.0").state.fpOutput = false
       ∧ (DSCreate (newDataSource imdInit) "out.xtf" (fun _ => imdSample)
            (fun _ _ => true) "3.12.0").state.written = []) :=
  ⟨by decide,
    create_requires_model imdInit "out.xtf" (fun _ => imdSample)
      (fun _ _ => true) "3.12.0" (by decide)⟩

/-- C9: when the resolved data file cannot be opened for reading, `Open`
returns failure, and surfaces an `OpenFailed` error exactly when the call is
trusted (non-probing); in probing mode the failure is silent. -/
theorem open_failure_error_policy (s : DSState) (nm : String)
    (mo : Option String) (bt : Bool) (ok : String → Bool) (c : List Char)
    (rok : Bool) (rl : List OGRILI2Layer) (b : String)
    (hres : resolveBasename nm mo = some b) (hfail : ok b = false) :
    (DSOpen s nm mo bt ok c rok rl).ret = false
    ∧ (DSOpen s nm mo bt ok c rok rl).errors
        = (if bt then [] else [(.failure, .openFailed)]) := by
  unfold DSOpen
  simp [hres, hfail]

/-- C9 witness: a trusted open of `missing.xtf` with the file open
failing. -/
theorem open_failure_error_policy_witness :
    resolveBasename "missing.xtf" none = some "missing.xtf"
    ∧ (fun _ : String => false) "missing.xtf" = false
    ∧ ((DSOpen sampleReadState "missing.xtf" none false (fun _ => false) []
          true []).ret = false
       ∧ (DSOpen sampleReadState "missing.xtf" none false (fun _ => false) []
            true []).errors
          = (if false then [] else [(.failure, .openFailed)])) :=
  ⟨by decide, rfl,
    open_failure_error_policy sampleReadState "missing.xtf" none false
      (fun _ => false) [] true [] "missing.xtf" (by decide) rfl⟩

/-- C3 counterexample: a probed file whose first non-whitespace byte is `<`
and whose window contains the namespace marker, yet `Open` in probing mode
rejects it (silently), because the code tests the very first byte of the
buffer against `<`, not the first non-whitespace byte. -/
theorem open_probe_first_byte_cex :
    firstNonWhitespace (headerWindow probeCexContent) = some '<'
    ∧ strstrContains iliMarker (headerWindow probeCexContent) = true
    ∧ (DSOpen (newDataSource imdInit) "sample.xtf" none true (fun _ => true)
        probeCexContent true []).ret = false
    ∧ (DSOpen (newDataSource imdInit) "sample.xtf" none true (fun _ => true)
        probeCexContent true []).errors = [] := by
  decide

/-- C3 (amended): in probing mode (file open and reader construction
succeeding), `Open` accepts exactly when the first byte of the probed header
window is `<` and the window contains the namespace marker; on a non-match
it fails with no error surfaced. -/
theorem open_probe_decision (imd0 : ImdReader) (nm : String)
    (content : List Char) (rl : List OGRILI2Layer)
    (h : CSLTokenizeString2 nm ≠ []) :
    (DSOpen (newDataSource imd0) nm none true (fun _ => true) content true
        rl).ret
      = ((headerWindow content).head? == some '<'
         && strstrContains iliMarker (headerWindow content))
    ∧ (probeMatch (headerWindow content) = false →
        (DSOpen (newDataSource imd0) nm none true (fun _ => true) content true
          rl).errors = []) := by
  unfold DSOpen resolveBasename
  cases hh : (CSLTokenizeString2 nm).head? with
  | none => exact absurd (List.head?_eq_none_iff.mp hh) h
  | some b =>
    simp only [hh]
    by_cases hp : probeMatch (headerWindow content) = true
    · rw [show ((headerWindow content).head? == some '<'
          && strstrContains iliMarker (headerWindow content))
          = probeMatch (headerWindow content) from rfl]
      simp [hp]
    · have hpf : probeMatch (headerWindow content) = false := by
        cases h0 : probeMatch (headerWindow content)
        · rfl
        · exact absurd h0 hp
      rw [show ((headerWindow content).head? == some '<'
          && strstrContains iliMarker (headerWindow content))
          = probeMatch (headerWindow content) from rfl]
      simp [hpf]

/-- C3 witness: the probe decision on a well-formed header that starts with
`<` and contains the marker. -/
theorem open_probe_decision_witness :
    CSLTokenizeString2 "sample.xtf" ≠ []
    ∧ ((DSOpen (newDataSource imdInit) "sample.xtf" none true (fun _ => true)
          "<TRANSFER xmlns=interlis.ch/INTERLIS2.3>".toList true
          [sampleLayer "A"]).ret
        = (((headerWindow
              "<TRANSFER xmlns=interlis.ch/INTERLIS2.3>".toList).head?
             == some '<')
           && strstrContains iliMarker
                (headerWindow
                  "<TRANSFER xmlns=interlis.ch/INTERLIS2.3>".toList))
       ∧ (probeMatch (headerWindow
            "<TRANSFER xmlns=interlis.ch/INTERLIS2.3>".toList) = false →
          (DSOpen (newDataSource imdInit) "sample.xtf" none true
            (fun _ => true)
            "<TRANSFER xmlns=interlis.ch/INTERLIS2.3>".toList true
            [sampleLayer "A"]).errors = [])) :=
  ⟨by decide,
    open_probe_decision imdInit "sample.xtf"
      "<TRANSFER xmlns=interlis.ch/INTERLIS2.3>".toList [sampleLayer "A"]
      (by decide)⟩

/-- A name with no catalog entry makes `GetFeatureDefnInfo` return the
default-constructed info (null table definition, no geometry-field
infos). -/
theorem GetFeatureDefnInfo_absent (imd : ImdReader) (name : String)
    (h : catalogHasLayer imd name = false) :
    imd.GetFeatureDefnInfo name
      = { tableDefn := none, poGeomFieldInfos := [] } := by
  unfold ImdReader.GetFeatureDefnInfo
  have hfind : imd.featureDefnInfos.find?
      (fun fd => match fd.tableDefn with
        | some d => d.defnName == name
        | none => false) = none := by
    rw [List.find?_eq_none]
    intro fd hfd
    intro hp
    have := List.any_eq_false.mp h fd hfd
    exact this hp
  rw [hfind]

/-- C5: on a container open for writing, creating a layer whose name is
absent from the model catalog yields a non-null layer whose synthesized
schema has no fields and exactly the requested geometry type (`wkbNone`
when no geometry descriptor was given), emits a non-fatal warning, keeps
the output stream held, and appends the layer to the registry. -/
theorem icreatelayer_fallback (s : DSState) (name : String)
    (g : Option OGRGeomFieldDefn)
    (hfp : s.fpOutput = true)
    (habs : catalogHasLayer s.imd name = false) :
    (ICreateLayer s name g).layer
        = some { featureDefn :=
                   { defnName := name, fieldNames := [],
                     geomType := match g with
                       | some gd => gd.eType
                       | none => OGRwkbGeometryType.wkbNone },
                 geomFieldInfos := [] }
    ∧ (ICreateLayer s name g).warned = true
    ∧ (ICreateLayer s name g).state.fpOutput = true
    ∧ (ICreateLayer s name g).state.papoLayers.length
        = s.papoLayers.length + 1 := by
  have hdef := GetFeatureDefnInfo_absent s.imd name habs
  unfold ICreateLayer
  simp [hfp, hdef, FeatureDefnInfo.GetTableDefnRef, OGRFeatureDefn.mk0,
    OGRFeatureDefn.SetGeomType]

/-- C5 witness: creating the unknown layer `Unknown` with a polygon
geometry descriptor on the sample write session. -/
theorem icreatelayer_fallback_witness :
    sampleCreateOutcome.state.fpOutput = true
    ∧ catalogHasLayer sampleCreateOutcome.state.imd "Unknown" = false
    ∧ ((ICreateLayer sampleCreateOutcome.state "Unknown"
          (some { fieldName := "geom",
                  eType := OGRwkbGeometryType.wkbPolygon })).layer
        = some { featureDefn :=
                   { defnName := "Unknown", fieldNames := [],
                     geomType := OGRwkbGeometryType.wkbPolygon },
                 geomFieldInfos := [] }
       ∧ (ICreateLayer sampleCreateOutcome.state "Unknown"
            (some { fieldName := "geom",
                    eType := OGRwkbGeometryType.wkbPolygon })).warned = true
       ∧ (ICreateLayer sampleCreateOutcome.state "Unknown"
            (some { fieldName := "geom",
                    eType := OGRwkbGeometryType.wkbPolygon })).state.fpOutput
          = true
       ∧ (ICreateLayer sampleCreateOutcome.state "Unknown"
            (some { fieldName := "geom",
                    eType := OGRwkbGeometryType.wkbPolygon
                  })).state.papoLayers.length
          = sampleCreateOutcome.state.papoLayers.length + 1) :=
  ⟨by decide, by decide,
    icreatelayer_fallback sampleCreateOutcome.state "Unknown"
      (some { fieldName := "geom", eType := OGRwkbGeometryType.wkbPolygon })
      (by decide) (by decide)⟩

/-- C7: a zip-wrapped output address whose extension is `zip` is rewritten
by appending the fixed entry name `out.xtf` before opening; an address
matching none of the stdout, gzip-wrap, or zip-wrap schemes is opened
verbatim with no rewrite. -/
theorem resolveOutputPath_scheme_rewrite (p : String) :
    (STARTS_WITH p "/vsizip/" = true →
       strEqualCI (CPLGetExtensionSafe p) "zip" = true →
       resolveOutputPath p = (p ++ "/out.xtf", "wb"))
    ∧ (p ≠ "/vsistdout/" → STARTS_WITH p "/vsigzip/" = false →
       STARTS_WITH p "/vsizip/" = false →
       resolveOutputPath p = (p, "wb+")) := by
  constructor
  · intro hz hext
    have hps : p ≠ "/vsistdout/" := by
      intro he
      rw [he] at hz
      exact absurd hz (by decide)
    have hg : ¬ (STARTS_WITH p "/vsigzip/" = true) := by
      intro hgt
      have h1 := List.isPrefixOf_iff_prefix.mp hz
      have h2 := List.isPrefixOf_iff_prefix.mp hgt
      rcases List.prefix_or_prefix_of_prefix h1 h2 with hc | hc
      · exact absurd hc (by decide)
      · exact absurd hc (by decide)
    have hcond1 : ¬ (p = "/vsistdout/"
        ∨ STARTS_WITH p "/vsigzip/" = true) := by
      rintro (hc | hc)
      · exact hps hc
      · exact hg hc
    have hpne : p ≠ "" := by
      intro he
      rw [he] at hz
      exact absurd hz (by decide)
    have hform : CPLFormFilenameSafe p "out.xtf" = p ++ "/out.xtf" := by
      unfold CPLFormFilenameSafe
      rw [if_neg hpne]
      have hlast : ¬ (p.toList.getLast? = some '/'
          ∨ p.toList.getLast? = some '\\') := by
        rw [List.getLast?_eq_head?_reverse]
        cases hrev : p.toList.reverse with
        | nil => simp
        | cons c cs =>
          unfold CPLGetExtensionSafe at hext
          rw [hrev] at hext
          rintro (hc | hc)
          · rw [List.head?_cons] at hc
            injection hc with hc
            subst hc
            simp only [List.takeWhile_cons] at hext
            norm_num at hext
            exact absurd hext (by decide)
          · rw [List.head?_cons] at hc
            injection hc with hc
            subst hc
            simp only [List.takeWhile_cons] at hext
            norm_num at hext
            exact absurd hext (by decide)
      rw [if_neg hlast, String.append_assoc]
      rfl
    unfold resolveOutputPath
    rw [if_neg hcond1, if_pos hz]
    rw [if_pos hext, hform]
  · intro h1 h2 h3
    have hcond1 : ¬ (p = "/vsistdout/"
        ∨ STARTS_WITH p "/vsigzip/" = true) := by
      rintro (hc | hc)
      · exact h1 hc
      · rw [h2] at hc
        exact absurd hc (by decide)
    unfold resolveOutputPath
    rw [if_neg hcond1, if_neg (by rw [h3]; decide)]

/-- C7 witness: the rewrite on the bare archive `/vsizip/archive.zip` and
the verbatim open of the plain address `plain.xtf`. -/
theorem resolveOutputPath_scheme_rewrite_witness :
    (STARTS_WITH "/vsizip/archive.zip" "/vsizip/" = true
     ∧ strEqualCI (CPLGetExtensionSafe "/vsizip/archive.zip") "zip" = true
     ∧ resolveOutputPath "/vsizip/archive.zip"
        = ("/vsizip/archive.zip" ++ "/out.xtf", "wb"))
    ∧ ("plain.xtf" ≠ "/vsistdout/"
       ∧ STARTS_WITH "plain.xtf" "/vsigzip/" = false
       ∧ STARTS_WITH "plain.xtf" "/vsizip/" = false
       ∧ resolveOutputPath "plain.xtf" = ("plain.xtf", "wb+")) :=
  ⟨⟨by decide, by decide,
     (resolveOutputPath_scheme_rewrite "/vsizip/archive.zip").1 (by decide)
       (by decide)⟩,
   ⟨by decide, by decide, by decide,
     (resolveOutputPath_scheme_rewrite "plain.xtf").2 (by decide) (by decide)
       (by decide)⟩⟩

/-- C8 counterexample: the all-uppercase name `CREATELAYER` differs from
every recognised capability name, yet the query answers true, because the
comparison (`EQUAL`) is case-insensitive. -/
theorem testCapability_case_insensitive_cex :
    TestCapability "CREATELAYER" = true
    ∧ "CREATELAYER" ≠ ODsCCreateLayer
    ∧ "CREATELAYER" ≠ ODsCCurveGeometries
    ∧ "CREATELAYER" ≠ ODsCZGeometries := by
  decide

/-- C8 (amended): the capability query is a pure function of the requested
name answering true exactly for the names equal, up to ASCII case, to one of
the create-layer, curve-geometry, and Z-geometry capability names, and false
for every other name. -/
theorem testCapability_characterization (cap : String) :
    TestCapability cap
      = (cap.toList.map byteToLower == "createlayer".toList
         || cap.toList.map byteToLower == "curvegeometries".toList
         || cap.toList.map byteToLower == "zgeometries".toList) := by
  have h1 : "CreateLayer".toList.map byteToLower = "createlayer".toList := by
    decide
  have h2 : "CurveGeometries".toList.map byteToLower
      = "curvegeometries".toList := by decide
  have h3 : "ZGeometries".toList.map byteToLower = "zgeometries".toList := by
    decide
  unfold TestCapability strEqualCI ODsCCreateLayer ODsCCurveGeometries
    ODsCZGeometries
  rw [h1, h2, h3]
  cases ha : cap.toList.map byteToLower == "createlayer".toList
  all_goals cases hb : cap.toList.map byteToLower == "curvegeometries".toList
  all_goals cases hc : cap.toList.map byteToLower == "zgeometries".toList
  all_goals simp [ha, hb, hc]

end ILI2
